import Mathlib

/-!
Verification of the device-presence monitor and per-device request-coordination
queue of `projects/vault-v2/src-tauri/src/event_controller.rs`.

The Rust source is shallowly embedded below.  Rust `String` values are modelled
as Lean `String`s; byte-level operations of Rust (`str::len`, byte slicing)
are modelled explicitly through a UTF-8 encoder producing `List Nat` byte
sequences.  The tokio runtime's `timeout` combinator is modelled by an explicit
future-outcome type recording at which tick (if ever) the underlying
request/response completes.  Notification emission (`app_handle.emit`) is
modelled by emission traces: lists of `Event` values in source order.
External collaborators (the `keepkey_rust` transport, the readiness evaluator
`crate::commands::evaluate_device_status`, and the feature conversion
`crate::commands::convert_features_to_device_features`) are taken as
parameters, exactly as the spec classifies them (consumed, not re-specified).
-/

/-! ## String primitives

Rust `str::contains`/`starts_with` perform (byte-level) substring matching;
for valid UTF-8 and the patterns used by the source, byte-level matching
coincides with character-level matching, which is what we model. -/

/-- Predicate `leadsWith pat s` is true when `pat` is an initial segment of `s`
(Rust `str::starts_with`). -/
def leadsWith : List Char → List Char → Bool
  | [], _ => true
  | _ :: _, [] => false
  | a :: as, b :: bs => a == b && leadsWith as bs

/-- Predicate `occursIn pat s` is true when `pat` occurs contiguously inside `s`
(Rust `str::contains`). -/
def occursIn (pat : List Char) : List Char → Bool
  | [] => pat.isEmpty
  | c :: tl => leadsWith pat (c :: tl) || occursIn pat tl

/-- Rust `s.contains(pat)` on strings. -/
def strContains (s pat : String) : Bool := occursIn pat.data s.data

/-- Rust `s.starts_with(pat)` on strings. -/
def strStarts (s pat : String) : Bool := leadsWith pat.data s.data

/-- UTF-8 encoding of one character, as its byte values. -/
def utf8EncodeChar (c : Char) : List Nat :=
  let n := c.toNat
  if n < 0x80 then [n]
  else if n < 0x800 then [0xC0 + n / 0x40, 0x80 + n % 0x40]
  else if n < 0x10000 then
    [0xE0 + n / 0x1000, 0x80 + n / 0x40 % 0x40, 0x80 + n % 0x40]
  else
    [0xF0 + n / 0x40000, 0x80 + n / 0x1000 % 0x40, 0x80 + n / 0x40 % 0x40,
      0x80 + n % 0x40]

/-- UTF-8 encoding of a string: the byte sequence a Rust `String` holds. -/
def utf8Str (s : String) : List Nat := s.data.flatMap utf8EncodeChar

/-- Rust `s.len()`: the UTF-8 byte length of a string. -/
def utf8Len (s : String) : Nat := (utf8Str s).length

/-- Whether byte offset `i` of the UTF-8 encoding of `s` falls on a character
boundary (Rust byte slicing panics when it does not). -/
def isCharBoundary (s : String) (i : Nat) : Bool :=
  (List.range (s.data.length + 1)).any
    (fun k => (utf8Str (String.mk (s.data.take k))).length == i)

/-- The last `n` characters of `s` (the whole string when it is shorter).
This is the SPEC's wording of the device-found suffix ("the last 8 characters
of the identifier"), kept separate from the source's byte-level computation
`deviceShort` so the two can be compared. -/
def specLastChars (n : Nat) (s : String) : String :=
  String.mk (s.data.drop (s.data.length - n))

/-! ## Data model -/

/-- Model of `keepkey_rust::friendly_usb::FriendlyUsbDevice` — the fields this core
reads (spec: Device Identity). -/
structure FriendlyUsbDevice where
  unique_id : String
  vid : Nat
  pid : Nat
  manufacturer : Option String
  product : Option String
deriving DecidableEq, Repr

/-- Model of `keepkey_rust::features::DeviceFeatures` — the fields this core reads
(spec: Device Features; the remaining attributes are opaque to this core and
never inspected by the functions under verification). -/
structure DeviceFeatures where
  label : Option String
  version : String
  bootloader_mode : Bool
  initialized : Bool
deriving DecidableEq, Repr

/-- The readiness verdict produced by `crate::commands::evaluate_device_status`
(spec: Readiness Verdict). -/
structure DeviceStatus where
  needs_bootloader_update : Bool
  needs_firmware_update : Bool
  needs_initialization : Bool
deriving DecidableEq, Repr

/-- One emission or spawn performed by the monitor.  `statusUpdate` carries the
UTF-8 bytes of the emitted status string (the device-found status is built
from a byte slice in the source, so byte sequences are the faithful payload
type); the `spawn…` constructors mark `tokio::spawn` calls. -/
inductive Event where
  | statusUpdate (bytes : List Nat)
  | deviceConnected (device : FriendlyUsbDevice)
  | deviceReady (device : FriendlyUsbDevice) (features : DeviceFeatures)
  | deviceDisconnected (deviceId : String)
  | featuresUpdated (deviceId : String) (features : DeviceFeatures)
      (status : DeviceStatus)
  | accessError (deviceId : String) (error : String) (errorType : String)
  | spawnResolution (device : FriendlyUsbDevice)
  | spawnCleanup (deviceId : String)
  | spawnDelayedScan
deriving DecidableEq, Repr

/-- The status strings among a list of events, in emission order. -/
def statusBytesOf (es : List Event) : List (List Nat) :=
  es.filterMap fun e =>
    match e with
    | Event.statusUpdate s => some s
    | _ => none

/-- The devices for which a `device:connected` event is present, in order. -/
def connectsOf (es : List Event) : List FriendlyUsbDevice :=
  es.filterMap fun e =>
    match e with
    | Event.deviceConnected d => some d
    | _ => none

/-- The identifiers for which a `device:disconnected` event is present. -/
def disconnectsOf (es : List Event) : List String :=
  es.filterMap fun e =>
    match e with
    | Event.deviceDisconnected i => some i
    | _ => none

/-- The `device:access-error` events among a list of events. -/
def accessErrorsOf (es : List Event) : List Event :=
  es.filter fun e =>
    match e with
    | Event.accessError _ _ _ => true
    | _ => false

/-! ## Worker registry (`DeviceQueueManager`)

`try_get_device_features` (event_controller.rs:336-351) performs, under one
`queue_manager.lock()`, a lookup of the device id and — only when absent — a
`DeviceQueueFactory::spawn_worker` plus insert.  The lock makes the whole
lookup-or-insert atomic, so a history of concurrent calls is a sequence of
these atomic operations; worker handles are identified by the running count of
`spawn_worker` invocations. -/

/-- The registry: the map held by the `DeviceQueueManager` mutex, plus the
running count of constructed workers (used as the identity of each handle). -/
structure RegState where
  table : List (String × Nat)
  nextHandle : Nat
deriving DecidableEq, Repr

/-- Model of `HashMap::get` on the registry table. -/
def tableLookup (id : String) : List (String × Nat) → Option Nat
  | [] => none
  | (k, v) :: t => if k == id then some v else tableLookup id t

/-- How many entries of the table carry the given identifier. -/
def keyCount (id : String) (t : List (String × Nat)) : Nat :=
  (t.filter fun p => p.1 == id).length

/-- The view one caller gets from the locked lookup-or-insert: either an
existing handle was reused or a new one was constructed. -/
inductive CallOutcome where
  | reused (h : Nat)
  | constructed (h : Nat)
deriving DecidableEq, Repr

/-- The handle a call observed. -/
def CallOutcome.handle : CallOutcome → Nat
  | CallOutcome.reused h => h
  | CallOutcome.constructed h => h

/-- Whether a call constructed (rather than reused) its handle. -/
def CallOutcome.isNew : CallOutcome → Bool
  | CallOutcome.reused _ => false
  | CallOutcome.constructed _ => true

/-- The locked get-or-create block of `try_get_device_features`
(event_controller.rs:336-351): reuse the handle when present, otherwise
`spawn_worker` and insert. -/
def registryGetOrCreate (st : RegState) (id : String) : CallOutcome × RegState :=
  match tableLookup id st.table with
  | some h => (CallOutcome.reused h, st)
  | none =>
      (CallOutcome.constructed st.nextHandle,
        ⟨(id, st.nextHandle) :: st.table, st.nextHandle + 1⟩)

/-- A history of lookup-or-create calls (one atomic lock-protected operation
each, in linearization order), with the outcome each caller observed. -/
def runCalls : RegState → List String → List (String × CallOutcome) × RegState
  | st, [] => ([], st)
  | st, i :: rest =>
      let p := registryGetOrCreate st i
      let r := runCalls p.2 rest
      ((i, p.1) :: r.1, r.2)

/-- The outcomes observed by the calls that used the given identifier. -/
def callsFor (log : List (String × CallOutcome)) (id : String) :
    List CallOutcome :=
  (log.filter fun p => p.1 == id).map Prod.snd

/-- How many of the given call outcomes constructed a worker. -/
def constructedCount (outs : List CallOutcome) : Nat :=
  (outs.filter CallOutcome.isNew).length

/-! ## Timeouts and the feature fetch -/

/-- The behaviour of one asynchronous request/response: it either completes at
some tick with a value, or never completes. -/
inductive FutureOutcome (α : Type) where
  | completes (at_tick : Nat) (val : α)
  | never
deriving DecidableEq, Repr

/-- Model of `tokio::time::timeout(limit, fut)`: the value, when the future completes
within the limit. -/
def timeoutRun (limit : Nat) : FutureOutcome α → Option α
  | FutureOutcome.completes t v => if t ≤ limit then some v else none
  | FutureOutcome.never => none

/-- The number of time units after which the timeout race resolves. -/
def timeoutElapsed (limit : Nat) : FutureOutcome α → Nat
  | FutureOutcome.completes t _ => min t limit
  | FutureOutcome.never => limit

/-- The failure-text heuristic guarding the OOB fallback
(event_controller.rs:364-366): Rust `contains` is case-sensitive. -/
def oobTrigger (e : String) : Bool :=
  strContains e "Unknown message" ||
  strContains e "Failure: Unknown message" ||
  strContains e "Unexpected response"

deriving instance DecidableEq for Except

/-- Everything observable about one `try_get_device_features` call. -/
structure FetchOutcome where
  /-- The `Result<DeviceFeatures, String>` returned to the caller. -/
  result : Except String DeviceFeatures
  /-- How many OOB fallback probes (`try_oob_bootloader_detection` calls)
  were attempted. -/
  probes : Nat
  /-- Time units until the `tokio::time::timeout` race resolved. -/
  elapsed : Nat
  /-- How many workers were spawned outside the registry (the fallback branch
  taken when the `DeviceQueueManager` state is unavailable). -/
  spawnedOutsideRegistry : Nat
  /-- The registry after the call, when it was available. -/
  registryAfter : Option RegState
deriving DecidableEq, Repr

/-- The `match tokio::time::timeout(5s, get_features()).await` block of
`try_get_device_features` (event_controller.rs:354-388; the fallback path at
401-435 repeats it verbatim).  `convert` is
`crate::commands::convert_features_to_device_features` (external to this
file), `oob` the outcome of the single OOB probe were it attempted. -/
def featuresFetchCore (convert : α → DeviceFeatures)
    (fut : FutureOutcome (Except String α))
    (oob : Except String DeviceFeatures) :
    Except String DeviceFeatures × Nat :=
  match timeoutRun 5 fut with
  | some (Except.ok raw) => (Except.ok (convert raw), 0)
  | some (Except.error e) =>
      if oobTrigger e then
        match oob with
        | Except.ok features => (Except.ok features, 1)
        | Except.error oobErr =>
            (Except.error ("Failed to get device features: " ++ e ++
              " (OOB attempt: " ++ oobErr ++ ")"), 1)
      else (Except.error ("Failed to get device features: " ++ e), 0)
  | none => (Except.error "Timeout while fetching device features", 0)

/-- Model of `try_get_device_features` (event_controller.rs:330-437).  When the
`DeviceQueueManager` is available (`mgr = some st`) the worker handle is
obtained through the locked registry get-or-create; otherwise a temporary
worker is spawned outside any registry. -/
def try_get_device_features (convert : α → DeviceFeatures)
    (mgr : Option RegState) (device : FriendlyUsbDevice)
    (fut : FutureOutcome (Except String α))
    (oob : Except String DeviceFeatures) : FetchOutcome :=
  match mgr with
  | some st =>
      let p := registryGetOrCreate st device.unique_id
      let r := featuresFetchCore convert fut oob
      { result := r.1, probes := r.2, elapsed := timeoutElapsed 5 fut,
        spawnedOutsideRegistry := 0, registryAfter := some p.2 }
  | none =>
      let r := featuresFetchCore convert fut oob
      { result := r.1, probes := r.2, elapsed := timeoutElapsed 5 fut,
        spawnedOutsideRegistry := 1, registryAfter := none }

/-! ## OOB fallback probe -/

/-- The outcome of `tokio::task::spawn_blocking`: the closure's value, or a
join error. -/
inductive BlockingOutcome (α : Type) where
  | ok (v : α)
  | joinErr (msg : String)
deriving DecidableEq, Repr

/-- What `try_oob_bootloader_detection` produced. -/
structure OobTrace where
  /-- The `Result<DeviceFeatures, String>` returned to the caller. -/
  result : Except String DeviceFeatures
  /-- The logged classification (`some true` = OOB-bootloader, `some false` =
  OOB-wallet), present only when the probe succeeded. -/
  classifiedBootloader : Option Bool
deriving DecidableEq, Repr

/-- The OOB classification heuristic (event_controller.rs:458-462). -/
def likelyOobBootloader (f : DeviceFeatures) : Bool :=
  f.bootloader_mode ||
  f.version == "Legacy Bootloader" ||
  strContains f.version "0.0.0" ||
  (!f.initialized && strStarts f.version "1.")

/-- Model of `try_oob_bootloader_detection` (event_controller.rs:442-477), as a function
of the blocking probe's outcome (`get_device_features_with_fallback` is
external).  The classification is computed and logged; the features are
returned unchanged. -/
def try_oob_bootloader_detection
    (probe : BlockingOutcome (Except String DeviceFeatures)) : OobTrace :=
  match probe with
  | BlockingOutcome.ok (Except.ok features) =>
      { result := Except.ok features,
        classifiedBootloader := some (likelyOobBootloader features) }
  | BlockingOutcome.ok (Except.error e) =>
      { result := Except.error e, classifiedBootloader := none }
  | BlockingOutcome.joinErr e =>
      { result := Except.error ("Task execution error: " ++ e),
        classifiedBootloader := none }

/-! ## Readiness resolution task emissions -/

/-- Rust `features.label.as_deref().unwrap_or("Unlabeled")`. -/
def labelOr (f : DeviceFeatures) : String := f.label.getD "Unlabeled"

/-- The "fully ready" test (event_controller.rs:141-143). -/
def isActuallyReady (s : DeviceStatus) : Bool :=
  !s.needs_bootloader_update && !s.needs_firmware_update &&
  !s.needs_initialization

/-- The status-message priority chain of the needs-updates branch
(event_controller.rs:166-176). -/
def updateStatusMessage (s : DeviceStatus) : String :=
  if s.needs_bootloader_update && s.needs_firmware_update &&
      s.needs_initialization then "Device needs updates"
  else if s.needs_bootloader_update then "Bootloader update needed"
  else if s.needs_firmware_update then "Firmware update needed"
  else if s.needs_initialization then "Device setup needed"
  else "Device ready"

/-- The emissions of the resolution task's success branch
(event_controller.rs:117-193), given the verdict the external evaluator
returned for the fetched features. -/
def successEvents (device : FriendlyUsbDevice) (features : DeviceFeatures)
    (status : DeviceStatus) : List Event :=
  [Event.statusUpdate (utf8Str (labelOr features ++ " v" ++ features.version))]
  ++ (if isActuallyReady status then
        [Event.statusUpdate (utf8Str "Device ready"),
          Event.deviceReady device features]
      else [Event.statusUpdate (utf8Str (updateStatusMessage status))])
  ++ [Event.featuresUpdated device.unique_id features status]

/-- An apostrophe (avoids embedding the raw character in source literals). -/
def apos : Char := Char.ofNat 39

/-- The device-already-in-use marker test (event_controller.rs:198-200). -/
def isClaimedError (e : String) : Bool :=
  strContains e "Device Already In Use" ||
  strContains e "already claimed" ||
  strContains e "🔒"

/-- The multi-line user-facing explanation built at event_controller.rs:205-219
("Technical details" carries the raw failure text). -/
def claimedExplanation (e : String) : String :=
  "🔒 KeepKey Device Already In Use\n\n" ++
  "Your KeepKey device is currently being used by another application.\n\n" ++
  "Common causes:\n" ++
  "• KeepKey Desktop app is running\n" ++
  "• KeepKey Bridge is running\n" ++
  "• Another wallet application is connected\n" ++
  "• Previous connection wasn" ++ String.mk [apos] ++ "t properly closed\n\n" ++
  "Solutions:\n" ++
  "1. Close KeepKey Desktop app completely\n" ++
  "2. Close any other wallet applications\n" ++
  "3. Unplug and reconnect your KeepKey device\n" ++
  "4. Try again\n\n" ++
  "Technical details: " ++ e

/-- The error string shown to the user (event_controller.rs:202-220): the raw
text when it already carries the lock glyph, else the built explanation. -/
def claimedUserError (e : String) : String :=
  if strContains e "🔒" then e else claimedExplanation e

/-- The resolution task's failure branch (event_controller.rs:194-231): an
access-error event is emitted only when the failure text matches the
device-already-in-use markers; otherwise the failure is only logged. -/
def errorBranchEvents (deviceId : String) (e : String) : List Event :=
  if isClaimedError e then
    [Event.accessError deviceId (claimedUserError e) "DEVICE_CLAIMED"]
  else []

/-- The trace of one readiness-resolution task (the `tokio::spawn`ed block at
event_controller.rs:105-233): the status emitted before the fetch, the number
of OOB probes the fetch made, and the emissions that follow the fetch result.
`evalStatus` is the external `crate::commands::evaluate_device_status`. -/
structure ResolutionTrace where
  preEvents : List Event
  probes : Nat
  postEvents : List Event
deriving DecidableEq, Repr

/-- The readiness-resolution task for one newly connected device. -/
def resolutionTask (convert : α → DeviceFeatures) (mgr : Option RegState)
    (device : FriendlyUsbDevice) (fut : FutureOutcome (Except String α))
    (oob : Except String DeviceFeatures)
    (evalStatus : String → DeviceFeatures → DeviceStatus) : ResolutionTrace :=
  let fo := try_get_device_features convert mgr device fut oob
  { preEvents := [Event.statusUpdate (utf8Str "Getting features...")],
    probes := fo.probes,
    postEvents :=
      match fo.result with
      | Except.ok features =>
          successEvents device features (evalStatus device.unique_id features)
      | Except.error e => errorBranchEvents device.unique_id e }

/-! ## Poll tick diffing -/

/-- Rust `&device.unique_id[device.unique_id.len().saturating_sub(8)..]`:
the last 8 bytes of the identifier's UTF-8 encoding (`Nat` subtraction is
saturating, like `saturating_sub`). -/
def deviceShort (id : String) : List Nat :=
  (utf8Str id).drop (utf8Len id - 8)

/-- The bytes of the emitted `format!("Device found {}", device_short)`. -/
def deviceFoundStatus (d : FriendlyUsbDevice) : List Nat :=
  utf8Str "Device found " ++ deviceShort d.unique_id

/-- One poll tick of the monitor loop (event_controller.rs:73-284): the
connect diff over the current snapshot, then the disconnect diff over the
previous snapshot, then the delayed-rescan spawn when all devices vanished. -/
def tickEvents (last current : List FriendlyUsbDevice) : List Event :=
  (current.flatMap fun d =>
    if last.any (fun x => x.unique_id == d.unique_id) then []
    else
      [Event.statusUpdate (deviceFoundStatus d), Event.deviceConnected d,
        Event.spawnResolution d])
  ++ (last.flatMap fun d =>
    if current.any (fun x => x.unique_id == d.unique_id) then []
    else
      [Event.statusUpdate (utf8Str "Device disconnected"),
        Event.spawnCleanup d.unique_id,
        Event.deviceDisconnected d.unique_id])
  ++ (if current.isEmpty && !last.isEmpty then [Event.spawnDelayedScan]
      else [])

/-! ## Lifecycle controller -/

/-- The `EventController` struct (event_controller.rs:8-12): the shared
cancellation token's state, whether a task handle is held, and the running
flag. -/
structure EventController where
  token_cancelled : Bool
  has_task_handle : Bool
  is_running : Bool
deriving DecidableEq, Repr

/-- Model of `EventController::new` (event_controller.rs:15-21). -/
def EventController.new : EventController :=
  { token_cancelled := false, has_task_handle := false, is_running := false }

/-- A controller together with the number of poll-loop tasks ever spawned on
its behalf (each `start` that passes the guard spawns exactly one). -/
structure ControllerWorld where
  ctrl : EventController
  pollLoopsSpawned : Nat
deriving DecidableEq, Repr

/-- A fresh controller with no loop spawned. -/
def ControllerWorld.init : ControllerWorld := ⟨EventController.new, 0⟩

/-- Model of `EventController::start` (event_controller.rs:23-294): early return when
already running, else spawn the poll loop (which clones the controller's
cancellation token) and set the running flag. -/
def ControllerWorld.start (w : ControllerWorld) : ControllerWorld :=
  if w.ctrl.is_running then w
  else
    { ctrl := { token_cancelled := w.ctrl.token_cancelled,
                has_task_handle := true, is_running := true },
      pollLoopsSpawned := w.pollLoopsSpawned + 1 }

/-- Model of `EventController::stop` (event_controller.rs:296-318): early return when
not running, else cancel the token, clear the running flag and take the
handle. -/
def ControllerWorld.stop (w : ControllerWorld) : ControllerWorld :=
  if w.ctrl.is_running then
    { ctrl := { token_cancelled := true, has_task_handle := false,
                is_running := false },
      pollLoopsSpawned := w.pollLoopsSpawned }
  else w

/-- The controller's public operations. -/
inductive COp where
  | start
  | stop
deriving DecidableEq, Repr

/-- Apply one controller operation. -/
def applyOp (w : ControllerWorld) : COp → ControllerWorld
  | COp.start => w.start
  | COp.stop => w.stop

/-- Apply a sequence of controller operations. -/
def applyOps (w : ControllerWorld) (ops : List COp) : ControllerWorld :=
  ops.foldl applyOp w

/-- The number of poll ticks a spawned loop performs within `fuel` iterations.
Each iteration is the UNBIASED `tokio::select!` at event_controller.rs:68-73
racing `cancellation_token.cancelled()` against `interval.tick()`: when the
cloned token is cancelled, both branches can be ready (the interval's first
tick is immediately ready, later ones become ready on the cadence), and which
ready branch wins is decided by the runtime — modelled by the schedule
`sched`, where `sched i = true` means the cancellation branch wins the race of
iteration `i`.  The loop breaks at a cancellation-branch win and otherwise
performs the iteration's poll tick; when the token is not cancelled the
cancellation branch is not ready and cannot win. -/
def loopTicks (cancelled : Bool) (sched : Nat → Bool) : Nat → Nat
  | 0 => 0
  | Nat.succ n =>
      if cancelled && sched 0 then 0
      else loopTicks cancelled (fun i => sched (i + 1)) n + 1

/-! ## Substring lemmas -/

theorem leadsWith_iff (p s : List Char) :
    leadsWith p s = true ↔ ∃ r, s = p ++ r := by
  induction p generalizing s with
  | nil => simp [leadsWith]
  | cons a as ih =>
    cases s with
    | nil => simp [leadsWith]
    | cons b bs =>
      simp only [leadsWith, Bool.and_eq_true, beq_iff_eq, ih, List.cons_append,
        List.cons.injEq]
      constructor
      · rintro ⟨h1, r, h2⟩
        exact ⟨r, h1.symm, h2⟩
      · rintro ⟨r, h1, h2⟩
        exact ⟨h1.symm, r, h2⟩

theorem occursIn_iff (p s : List Char) :
    occursIn p s = true ↔ ∃ l r, s = l ++ p ++ r := by
  induction s with
  | nil =>
    simp only [occursIn, List.isEmpty_iff]
    constructor
    · rintro rfl
      exact ⟨[], [], rfl⟩
    · rintro ⟨l, r, h⟩
      rcases List.append_eq_nil.mp (List.append_eq_nil.mp h.symm).1 with ⟨-, h2⟩
      exact h2
  | cons c tl ih =>
    simp only [occursIn, Bool.or_eq_true, leadsWith_iff, ih]
    constructor
    · rintro (⟨r, h⟩ | ⟨l, r, h⟩)
      · exact ⟨[], r, by simp [h]⟩
      · exact ⟨c :: l, r, by simp [h]⟩
    · rintro ⟨l, r, h⟩
      cases l with
      | nil => exact Or.inl ⟨r, by simpa using h⟩
      | cons a l' =>
        simp only [List.cons_append, List.cons.injEq] at h
        exact Or.inr ⟨l', r, h.2⟩

theorem occursIn_append_right (a b s : List Char)
    (h : occursIn (a ++ b) s = true) : occursIn b s = true := by
  rcases (occursIn_iff _ _).1 h with ⟨l, r, hs⟩
  exact (occursIn_iff _ _).2 ⟨l ++ a, r, by simp [hs]⟩

/-- The middle disjunct of the OOB trigger is redundant: a text containing
"Failure: Unknown message" also contains "Unknown message". -/
theorem failure_marker_collapse (e : String)
    (h : strContains e "Failure: Unknown message" = true) :
    strContains e "Unknown message" = true := by
  have hd : ("Failure: Unknown message").data =
      ("Failure: ").data ++ ("Unknown message").data := by decide
  unfold strContains at h ⊢
  rw [hd] at h
  exact occursIn_append_right _ _ _ h

/-! ## Controller lemmas -/

theorem start_token (w : ControllerWorld) :
    (ControllerWorld.start w).ctrl.token_cancelled =
      w.ctrl.token_cancelled := by
  unfold ControllerWorld.start
  split <;> rfl

theorem token_mono_op (w : ControllerWorld) (op : COp)
    (h : w.ctrl.token_cancelled = true) :
    (applyOp w op).ctrl.token_cancelled = true := by
  cases op with
  | start => rw [applyOp, start_token]; exact h
  | stop =>
    show (ControllerWorld.stop w).ctrl.token_cancelled = true
    unfold ControllerWorld.stop
    split
    · rfl
    · exact h

theorem token_mono_ops (ops : List COp) (w : ControllerWorld)
    (h : w.ctrl.token_cancelled = true) :
    (applyOps w ops).ctrl.token_cancelled = true := by
  induction ops generalizing w with
  | nil => exact h
  | cons op rest ih =>
    have : applyOps w (op :: rest) = applyOps (applyOp w op) rest := rfl
    rw [this]
    exact ih _ (token_mono_op w op h)

/-- A spawned loop on a cancelled token exits at the first iteration whose
select race the cancellation branch wins: with that first win at iteration
`k`, at most `k` poll ticks are performed. -/
theorem loopTicks_exits_at_first_win (sched : Nat → Bool) (n k : Nat)
    (hk : sched k = true) : loopTicks true sched n ≤ k := by
  induction n generalizing sched k with
  | zero => exact Nat.zero_le k
  | succ n ih =>
    cases hs0 : sched 0 with
    | true => simp [loopTicks, hs0]
    | false =>
      cases k with
      | zero => exact absurd hk (by simp [hs0])
      | succ k =>
        simp only [loopTicks, hs0, Bool.and_false, Bool.false_eq_true,
          if_false]
        exact Nat.succ_le_succ (ih (fun i => sched (i + 1)) k hk)

/-! ## Claim theorems -/

/-- C6: a feature request whose underlying request/response never completes
makes `try_get_device_features` resolve exactly when the 5-time-unit timeout
fires (it never hangs), with the exact error string
"Timeout while fetching device features" and no OOB probe — on both the
registry path and the fallback path. -/
theorem timeout_yields_fixed_message (α : Type) (convert : α → DeviceFeatures)
    (mgr : Option RegState) (device : FriendlyUsbDevice)
    (oob : Except String DeviceFeatures) :
    (try_get_device_features convert mgr device FutureOutcome.never oob).result
        = Except.error "Timeout while fetching device features" ∧
    (try_get_device_features convert mgr device
        FutureOutcome.never oob).elapsed = 5 ∧
    (try_get_device_features convert mgr device
        FutureOutcome.never oob).probes = 0 := by
  cases mgr <;> exact ⟨rfl, rfl, rfl⟩

/-- C7: `start` on a controller that is already running is a no-op — it
changes nothing (in particular spawns no second poll loop), and starting a
fresh controller twice leaves exactly one poll loop spawned. -/
theorem start_idempotent_when_running (w : ControllerWorld)
    (h : w.ctrl.is_running = true) :
    ControllerWorld.start w = w ∧
    (ControllerWorld.start
        (ControllerWorld.start ControllerWorld.init)).pollLoopsSpawned = 1 := by
  refine ⟨?_, by decide⟩
  unfold ControllerWorld.start
  simp [h]

/-- Witness for C7 at a concrete running controller. -/
theorem start_idempotent_when_running_witness :
    ControllerWorld.start (ControllerWorld.start ControllerWorld.init) =
      ControllerWorld.start ControllerWorld.init ∧
    (ControllerWorld.start
        (ControllerWorld.start ControllerWorld.init)).pollLoopsSpawned = 1 :=
  start_idempotent_when_running (ControllerWorld.start ControllerWorld.init)
    (by decide)

/-- C8: on a successful OOB probe the returned Features equal the probe's
Features unchanged; the OOB-bootloader/OOB-wallet classification is computed
by the stated heuristic but only logged — it alters no field of the result. -/
theorem oob_probe_returns_features_unchanged (f : DeviceFeatures) :
    (try_oob_bootloader_detection
        (BlockingOutcome.ok (Except.ok f))).result = Except.ok f ∧
    (try_oob_bootloader_detection
        (BlockingOutcome.ok (Except.ok f))).classifiedBootloader =
      some (likelyOobBootloader f) :=
  ⟨rfl, rfl⟩

/-- C10 as stated is false: after stop-then-start the relaunched loop's token
is indeed cancelled, but the source's `tokio::select!` is unbiased and the
interval's overdue first tick is immediately ready, so when the tick branch
wins the first race the loop performs a full poll tick before it can break —
it does not exit before performing any poll tick. -/
theorem restarted_loop_can_poll_once :
    (ControllerWorld.start (ControllerWorld.stop
        (ControllerWorld.start ControllerWorld.init))).ctrl.token_cancelled
      = true ∧
    loopTicks true (fun _ => false) 1 = 1 := by
  decide

/-- C10 (amended): stopping a running controller cancels the shared token and
no later sequence of start/stop operations ever resets it, so every iteration
of the poll loop spawned by any subsequent `start` races the already-cancelled
token against the interval tick; the loop exits at the first iteration whose
(unbiased) select race the cancellation branch wins, performing at most `k`
poll ticks when that first win is at iteration `k` — and none at all when the
cancellation branch wins immediately.  A stopped controller's loop can
therefore poll only until the cancellation branch first wins a race; it never
resumes unbounded monitoring. -/
theorem stopped_controller_exits_at_first_cancel_win (w : ControllerWorld)
    (ops : List COp) (sched : Nat → Bool) (n k : Nat)
    (h : w.ctrl.is_running = true) (hk : sched k = true) :
    (ControllerWorld.stop w).ctrl.token_cancelled = true ∧
    (applyOps (ControllerWorld.stop w) ops).ctrl.token_cancelled = true ∧
    loopTicks ((ControllerWorld.start
        (applyOps (ControllerWorld.stop w) ops)).ctrl.token_cancelled) sched n
      ≤ k := by
  have h1 : (ControllerWorld.stop w).ctrl.token_cancelled = true := by
    unfold ControllerWorld.stop
    simp [h]
  have h2 := token_mono_ops ops _ h1
  refine ⟨h1, h2, ?_⟩
  rw [start_token, h2]
  exact loopTicks_exits_at_first_win sched n k hk

/-- Witness for C10 (amended) at a concrete started-then-stopped controller
with a schedule whose cancellation branch wins the first race: zero ticks. -/
theorem stopped_controller_exits_at_first_cancel_win_witness :
    (ControllerWorld.stop
        (ControllerWorld.start ControllerWorld.init)).ctrl.token_cancelled
      = true ∧
    (applyOps (ControllerWorld.stop
        (ControllerWorld.start ControllerWorld.init))
        [COp.start]).ctrl.token_cancelled = true ∧
    loopTicks ((ControllerWorld.start
        (applyOps (ControllerWorld.stop
          (ControllerWorld.start ControllerWorld.init))
          [COp.start])).ctrl.token_cancelled) (fun _ => true) 3 ≤ 0 :=
  stopped_controller_exits_at_first_cancel_win
    (ControllerWorld.start ControllerWorld.init) [COp.start]
    (fun _ => true) 3 0 (by decide) rfl

/-- A sample device identity used by witnesses. -/
def sampleDevice : FriendlyUsbDevice :=
  ⟨"keepkey-serial-123", 11044, 2, some "KeyHodlers", some "KeepKey"⟩

/-- Sample features used by witnesses. -/
def sampleFeatures : DeviceFeatures := ⟨some "My KeepKey", "7.7.0", false, true⟩

/-- A device whose identifier ends in a two-byte UTF-8 character. -/
def accentDevice : FriendlyUsbDevice := ⟨"abcdefgé", 1, 2, none, none⟩

/-- C3: with previous snapshot {A,B} and current snapshot {B,C} (identity by
`unique_id`), one poll tick emits exactly one connect notification — for C —
and exactly one disconnect notification — for A — and neither for B. -/
theorem diff_correctness (A B C : FriendlyUsbDevice)
    (hAB : (A.unique_id == B.unique_id) = false)
    (hAC : (A.unique_id == C.unique_id) = false)
    (hBC : (B.unique_id == C.unique_id) = false) :
    connectsOf (tickEvents [A, B] [B, C]) = [C] ∧
    disconnectsOf (tickEvents [A, B] [B, C]) = [A.unique_id] := by
  have hBA : (B.unique_id == A.unique_id) = false :=
    beq_eq_false_iff_ne.mpr (Ne.symm (beq_eq_false_iff_ne.mp hAB))
  have hCA : (C.unique_id == A.unique_id) = false :=
    beq_eq_false_iff_ne.mpr (Ne.symm (beq_eq_false_iff_ne.mp hAC))
  have hCB : (C.unique_id == B.unique_id) = false :=
    beq_eq_false_iff_ne.mpr (Ne.symm (beq_eq_false_iff_ne.mp hBC))
  have nAB := beq_eq_false_iff_ne.mp hAB
  have nAC := beq_eq_false_iff_ne.mp hAC
  have nBC := beq_eq_false_iff_ne.mp hBC
  have nBA := beq_eq_false_iff_ne.mp hBA
  have nCA := beq_eq_false_iff_ne.mp hCA
  have nCB := beq_eq_false_iff_ne.mp hCB
  constructor <;>
    simp [tickEvents, connectsOf, disconnectsOf, hAB, hAC, hBC, hBA, hCA, hCB,
      nAB, nAC, nBC, nBA, nCA, nCB]

/-- Witness for C3 at three concrete devices. -/
theorem diff_correctness_witness :
    connectsOf (tickEvents [⟨"aaa", 1, 1, none, none⟩, ⟨"bbb", 1, 2, none, none⟩]
        [⟨"bbb", 1, 2, none, none⟩, ⟨"ccc", 1, 3, none, none⟩]) =
      [⟨"ccc", 1, 3, none, none⟩] ∧
    disconnectsOf (tickEvents
        [⟨"aaa", 1, 1, none, none⟩, ⟨"bbb", 1, 2, none, none⟩]
        [⟨"bbb", 1, 2, none, none⟩, ⟨"ccc", 1, 3, none, none⟩]) =
      [(⟨"aaa", 1, 1, none, none⟩ : FriendlyUsbDevice).unique_id] :=
  diff_correctness ⟨"aaa", 1, 1, none, none⟩ ⟨"bbb", 1, 2, none, none⟩
    ⟨"ccc", 1, 3, none, none⟩ (by decide) (by decide) (by decide)

/-- C5: the status message emitted on a successful fetch follows the priority
order all-three → "Device needs updates", else bootloader → "Bootloader update
needed", else firmware → "Firmware update needed", else init → "Device setup
needed"; with no flag set, "Device ready" is emitted followed by the
`device:ready` event. -/
theorem verdict_status_mapping (d : FriendlyUsbDevice) (f : DeviceFeatures)
    (s : DeviceStatus) :
    (s.needs_bootloader_update = true → s.needs_firmware_update = true →
      s.needs_initialization = true →
      (statusBytesOf (successEvents d f s)).get? 1 =
        some (utf8Str "Device needs updates")) ∧
    (s.needs_bootloader_update = true →
      (s.needs_firmware_update && s.needs_initialization) = false →
      (statusBytesOf (successEvents d f s)).get? 1 =
        some (utf8Str "Bootloader update needed")) ∧
    (s.needs_bootloader_update = false → s.needs_firmware_update = true →
      (statusBytesOf (successEvents d f s)).get? 1 =
        some (utf8Str "Firmware update needed")) ∧
    (s.needs_bootloader_update = false → s.needs_firmware_update = false →
      s.needs_initialization = true →
      (statusBytesOf (successEvents d f s)).get? 1 =
        some (utf8Str "Device setup needed")) ∧
    (s.needs_bootloader_update = false → s.needs_firmware_update = false →
      s.needs_initialization = false →
      successEvents d f s =
        [Event.statusUpdate (utf8Str (labelOr f ++ " v" ++ f.version)),
          Event.statusUpdate (utf8Str "Device ready"),
          Event.deviceReady d f,
          Event.featuresUpdated d.unique_id f s]) := by
  obtain ⟨b, fw, i⟩ := s
  cases b <;> cases fw <;> cases i <;>
    refine ⟨?_, ?_, ?_, ?_, ?_⟩ <;> intros <;> first | rfl | simp_all

/-- Witness for C5: the all-three-flags case at concrete inputs. -/
theorem verdict_status_mapping_witness :
    (statusBytesOf (successEvents sampleDevice sampleFeatures
        ⟨true, true, true⟩)).get? 1 = some (utf8Str "Device needs updates") :=
  (verdict_status_mapping sampleDevice sampleFeatures ⟨true, true, true⟩).1
    rfl rfl rfl

/-- C9 as stated is false: for the identifier "abcdefgé" (8 characters,
9 UTF-8 bytes) the tick does not emit "Device found " followed by the last 8
characters (which would be the whole identifier); it emits the last 8 BYTES,
i.e. "Device found bcdefgé". -/
theorem device_found_suffix_not_chars :
    Event.statusUpdate (utf8Str ("Device found " ++ specLastChars 8 "abcdefgé"))
        ∉ tickEvents [] [accentDevice] ∧
    Event.statusUpdate (utf8Str "Device found " ++ deviceShort "abcdefgé")
        ∈ tickEvents [] [accentDevice] ∧
    deviceShort "abcdefgé" ≠ utf8Str (specLastChars 8 "abcdefgé") := by
  decide

/-- C9 (amended): for every newly connected device the tick emits the status
whose bytes are "Device found " followed by the last 8 UTF-8 BYTES of the
identifier (the whole identifier when it is at most 8 bytes long; the
`len - 8` byte offset must be a character boundary, otherwise the source
panics).  For ASCII identifiers this coincides with the claim's last 8
characters. -/
theorem device_found_status_bytes (last current : List FriendlyUsbDevice)
    (d : FriendlyUsbDevice)
    (hmem : d ∈ current)
    (hnew : (last.any fun x => x.unique_id == d.unique_id) = false)
    (_hb : isCharBoundary d.unique_id (utf8Len d.unique_id - 8) = true) :
    Event.statusUpdate (utf8Str "Device found " ++ deviceShort d.unique_id)
      ∈ tickEvents last current := by
  unfold tickEvents
  apply List.mem_append_left
  apply List.mem_append_left
  rw [List.mem_flatMap]
  refine ⟨d, hmem, ?_⟩
  rw [hnew]
  simp [deviceFoundStatus]

/-- Witness for C9 (amended) at a concrete ASCII identifier. -/
theorem device_found_status_bytes_witness :
    Event.statusUpdate
        (utf8Str "Device found " ++ deviceShort sampleDevice.unique_id)
      ∈ tickEvents [] [sampleDevice] :=
  device_found_status_bytes [] [sampleDevice] sampleDevice (by simp)
    (by decide) (by decide)

/-- C4 as stated is false: the spec's lowercase rendering of the heuristic
does not match the code's case-sensitive `contains` — a failure whose text is
exactly "unknown message" (which contains the spec's lowercase marker)
causes zero OOB probe attempts. -/
theorem oob_trigger_lowercase_no_probe :
    strContains "unknown message" "unknown message" = true ∧
    (try_get_device_features (fun f : DeviceFeatures => f) (some ⟨[], 0⟩)
        sampleDevice (FutureOutcome.completes 0 (Except.error "unknown message"))
        (Except.ok sampleFeatures)).probes = 0 := by
  decide

/-- C4 (amended): on a feature-fetch failure the OOB probe is attempted
exactly once if and only if the failure text contains the case-sensitive
markers "Unknown message" or "Unexpected response" (the source's third
marker "Failure: Unknown message" is subsumed by the first); otherwise zero
probes are attempted.  A failure with message exactly "Unknown message"
therefore causes exactly one probe, an unrelated message zero. -/
theorem oob_trigger_case_sensitive (α : Type) (convert : α → DeviceFeatures)
    (st : RegState) (device : FriendlyUsbDevice)
    (oob : Except String DeviceFeatures) (e : String) :
    (try_get_device_features convert (some st) device
        (FutureOutcome.completes 0 (Except.error e)) oob).probes =
      (if strContains e "Unknown message" ||
          strContains e "Unexpected response" then 1 else 0) := by
  have hcol : oobTrigger e =
      (strContains e "Unknown message" ||
        strContains e "Unexpected response") := by
    unfold oobTrigger
    cases hF : strContains e "Failure: Unknown message"
    · simp
    · simp [failure_marker_collapse e hF]
  show (featuresFetchCore convert
      (FutureOutcome.completes 0 (Except.error e)) oob).2 = _
  cases hc : (strContains e "Unknown message" ||
      strContains e "Unexpected response") with
  | false => simp [featuresFetchCore, timeoutRun, hcol, hc]
  | true => cases oob <;> simp [featuresFetchCore, timeoutRun, hcol, hc]

/-- C1 as stated is false: a feature fetch ending in a timeout — or in any
failure whose text does not match the device-already-in-use markers — makes
the resolution task terminate WITHOUT emitting any notification: its
post-fetch emission list is empty. -/
theorem timeout_emits_no_access_error :
    (resolutionTask (fun f : DeviceFeatures => f) (some ⟨[], 0⟩) sampleDevice
        (FutureOutcome.never : FutureOutcome (Except String DeviceFeatures))
        (Except.error "") (fun _ _ => ⟨false, false, false⟩)).postEvents
      = [] ∧
    (resolutionTask (fun f : DeviceFeatures => f) (some ⟨[], 0⟩) sampleDevice
        (FutureOutcome.completes 0 (Except.error "some transport error"))
        (Except.error "") (fun _ _ => ⟨false, false, false⟩)).postEvents
      = [] := by
  decide

/-- C1 (amended): for a feature fetch ending in a failure that does not
trigger the OOB fallback, the resolution task emits a `device:access-error`
notification (errorType "DEVICE_CLAIMED") if and only if the failure text
matches the device-already-in-use markers ("Device Already In Use",
"already claimed", or the lock glyph); the payload carries the multi-line
user-facing explanation — or the raw text when it already carries the lock
glyph.  Non-matching failures, and timeouts, terminate with no notification
at all. -/
theorem access_error_only_for_claimed (α : Type) (convert : α → DeviceFeatures)
    (st : RegState) (device : FriendlyUsbDevice)
    (oob : Except String DeviceFeatures)
    (evalStatus : String → DeviceFeatures → DeviceStatus) (e : String)
    (hno : oobTrigger e = false) :
    (isClaimedError ("Failed to get device features: " ++ e) = true →
      (resolutionTask convert (some st) device
          (FutureOutcome.completes 0 (Except.error e)) oob
          evalStatus).postEvents =
        [Event.accessError device.unique_id
          (claimedUserError ("Failed to get device features: " ++ e))
          "DEVICE_CLAIMED"]) ∧
    (isClaimedError ("Failed to get device features: " ++ e) = false →
      (resolutionTask convert (some st) device
          (FutureOutcome.completes 0 (Except.error e)) oob
          evalStatus).postEvents = []) ∧
    (resolutionTask convert (some st) device FutureOutcome.never oob
        evalStatus).postEvents = [] := by
  have hres : (try_get_device_features convert (some st) device
      (FutureOutcome.completes 0 (Except.error e)) oob).result =
      Except.error ("Failed to get device features: " ++ e) := by
    show (featuresFetchCore convert
        (FutureOutcome.completes 0 (Except.error e)) oob).1 = _
    simp [featuresFetchCore, timeoutRun, hno]
  have hT : isClaimedError "Timeout while fetching device features" = false :=
    by decide
  refine ⟨fun hc => ?_, fun hc => ?_, ?_⟩
  · simp [resolutionTask, hres, errorBranchEvents, hc]
  · simp [resolutionTask, hres, errorBranchEvents, hc]
  · simp [resolutionTask, try_get_device_features, featuresFetchCore,
      timeoutRun, errorBranchEvents, hT]

/-- Witness for C1 (amended) at the concrete failure text "already claimed". -/
theorem access_error_only_for_claimed_witness :
    (resolutionTask (fun f : DeviceFeatures => f) (some ⟨[], 0⟩) sampleDevice
        (FutureOutcome.completes 0 (Except.error "already claimed"))
        (Except.error "") (fun _ _ => ⟨false, false, false⟩)).postEvents =
      [Event.accessError sampleDevice.unique_id
        (claimedUserError ("Failed to get device features: " ++
          "already claimed"))
        "DEVICE_CLAIMED"] :=
  (access_error_only_for_claimed DeviceFeatures (fun f => f) ⟨[], 0⟩
    sampleDevice (Except.error "") (fun _ _ => ⟨false, false, false⟩)
    "already claimed" (by decide)).1 (by decide)

/-! ## Registry lemmas for the single-flight invariant -/

theorem tableLookup_cons (k : String) (v : Nat) (t : List (String × Nat))
    (id : String) :
    tableLookup id ((k, v) :: t) =
      if (k == id) then some v else tableLookup id t := rfl

theorem keyCount_cons (k : String) (v : Nat) (t : List (String × Nat))
    (id : String) :
    keyCount id ((k, v) :: t) =
      if (k == id) then keyCount id t + 1 else keyCount id t := by
  simp only [keyCount, List.filter_cons]
  split <;> simp_all [keyCount]

theorem callsFor_cons (i : String) (o : CallOutcome)
    (log : List (String × CallOutcome)) (id : String) :
    callsFor ((i, o) :: log) id =
      if (i == id) then o :: callsFor log id else callsFor log id := by
  simp only [callsFor, List.filter_cons]
  split <;> simp_all [callsFor]

/-- Once the registry holds handle `h` for `id`, every later call for `id`
observes `h` by reuse, and the entry (and its multiplicity) never changes. -/
theorem runCalls_persist (ids : List String) (st : RegState) (id : String)
    (h : Nat) (hl : tableLookup id st.table = some h) :
    (∀ o ∈ callsFor (runCalls st ids).1 id, o = CallOutcome.reused h) ∧
    tableLookup id (runCalls st ids).2.table = some h ∧
    keyCount id (runCalls st ids).2.table = keyCount id st.table := by
  induction ids generalizing st with
  | nil => exact ⟨by simp [runCalls, callsFor], hl, rfl⟩
  | cons i rest ih =>
    by_cases hii : (i == id) = true
    · have hid : i = id := beq_iff_eq.mp hii
      subst hid
      obtain ⟨p1, p2, p3⟩ := ih st hl
      refine ⟨?_, ?_, ?_⟩ <;>
        simp only [runCalls, registryGetOrCreate, hl, callsFor_cons,
          beq_self_eq_true, if_true]
      · intro o ho
        rcases List.mem_cons.mp ho with rfl | hmem
        · rfl
        · exact p1 o hmem
      · exact p2
      · exact p3
    · have hii' : (i == id) = false := by
        cases hiv : (i == id)
        · rfl
        · exact absurd hiv hii
      cases hli : tableLookup i st.table with
      | some h' =>
        obtain ⟨p1, p2, p3⟩ := ih st hl
        refine ⟨?_, ?_, ?_⟩ <;>
          simp only [runCalls, registryGetOrCreate, hli, callsFor_cons, hii',
            if_false, Bool.false_eq_true]
        · exact p1
        · exact p2
        · exact p3
      | none =>
        have hl' : tableLookup id ((i, st.nextHandle) :: st.table) = some h :=
          by simp [tableLookup_cons, hii', hl]
        have hc' : keyCount id ((i, st.nextHandle) :: st.table) =
            keyCount id st.table := by simp [keyCount_cons, hii']
        obtain ⟨p1, p2, p3⟩ :=
          ih ⟨(i, st.nextHandle) :: st.table, st.nextHandle + 1⟩ hl'
        refine ⟨?_, ?_, ?_⟩ <;>
          simp only [runCalls, registryGetOrCreate, hli, callsFor_cons, hii',
            if_false, Bool.false_eq_true]
        · exact p1
        · exact p2
        · rw [p3]
          exact hc'

/-- From a registry with no entry for `id`, a history of calls either never
asks for `id`, or constructs exactly one handle for it on the first `id` call
and reuses that same handle ever after; the registry ends with at most one
entry for `id`. -/
theorem runCalls_fresh (ids : List String) (st : RegState) (id : String)
    (hl : tableLookup id st.table = none) (hc : keyCount id st.table = 0) :
    (callsFor (runCalls st ids).1 id = [] ∧
     tableLookup id (runCalls st ids).2.table = none ∧
     keyCount id (runCalls st ids).2.table = 0) ∨
    (∃ h tl, callsFor (runCalls st ids).1 id = CallOutcome.constructed h :: tl ∧
      (∀ o ∈ tl, o = CallOutcome.reused h) ∧
      tableLookup id (runCalls st ids).2.table = some h ∧
      keyCount id (runCalls st ids).2.table = 1) := by
  induction ids generalizing st with
  | nil => exact Or.inl ⟨by simp [runCalls, callsFor], hl, hc⟩
  | cons i rest ih =>
    by_cases hii : (i == id) = true
    · have hid : i = id := beq_iff_eq.mp hii
      subst hid
      right
      have hl' : tableLookup i ((i, st.nextHandle) :: st.table) =
          some st.nextHandle := by simp [tableLookup_cons]
      obtain ⟨p1, p2, p3⟩ := runCalls_persist rest
        ⟨(i, st.nextHandle) :: st.table, st.nextHandle + 1⟩ i st.nextHandle hl'
      refine ⟨st.nextHandle,
        callsFor (runCalls ⟨(i, st.nextHandle) :: st.table,
          st.nextHandle + 1⟩ rest).1 i, ?_, p1, ?_, ?_⟩ <;>
        simp only [runCalls, registryGetOrCreate, hl, callsFor_cons,
          beq_self_eq_true, if_true]
      · exact p2
      · rw [p3]
        simp [keyCount_cons, hc]
    · have hii' : (i == id) = false := by
        cases hiv : (i == id)
        · rfl
        · exact absurd hiv hii
      cases hli : tableLookup i st.table with
      | some h' =>
        rcases ih st hl hc with ⟨q1, q2, q3⟩ | ⟨h, tl, q1, q2, q3, q4⟩
        · refine Or.inl ⟨?_, ?_, ?_⟩ <;>
            simp only [runCalls, registryGetOrCreate, hli, callsFor_cons, hii',
              if_false, Bool.false_eq_true]
          · exact q1
          · exact q2
          · exact q3
        · refine Or.inr ⟨h, tl, ?_, q2, ?_, ?_⟩ <;>
            simp only [runCalls, registryGetOrCreate, hli, callsFor_cons, hii',
              if_false, Bool.false_eq_true]
          · exact q1
          · exact q3
          · exact q4
      | none =>
        have hl' : tableLookup id ((i, st.nextHandle) :: st.table) = none := by
          simp [tableLookup_cons, hii', hl]
        have hc' : keyCount id ((i, st.nextHandle) :: st.table) = 0 := by
          simp [keyCount_cons, hii', hc]
        rcases ih ⟨(i, st.nextHandle) :: st.table, st.nextHandle + 1⟩ hl' hc'
          with ⟨q1, q2, q3⟩ | ⟨h, tl, q1, q2, q3, q4⟩
        · refine Or.inl ⟨?_, ?_, ?_⟩ <;>
            simp only [runCalls, registryGetOrCreate, hli, callsFor_cons, hii',
              if_false, Bool.false_eq_true]
          · exact q1
          · exact q2
          · exact q3
        · refine Or.inr ⟨h, tl, ?_, q2, ?_, ?_⟩ <;>
            simp only [runCalls, registryGetOrCreate, hli, callsFor_cons, hii',
              if_false, Bool.false_eq_true]
          · exact q1
          · exact q3
          · exact q4

theorem constructedCount_all_reused (h : Nat) (tl : List CallOutcome)
    (H : ∀ o ∈ tl, o = CallOutcome.reused h) : constructedCount tl = 0 := by
  induction tl with
  | nil => rfl
  | cons a l ih =>
    have ha := H a (List.mem_cons_self a l)
    subst ha
    simp only [constructedCount, List.filter_cons, CallOutcome.isNew,
      Bool.false_eq_true, if_false]
    exact ih fun o ho => H o (List.mem_cons_of_mem _ ho)

theorem pairwise_handles_all_reused (h : Nat) (tl : List CallOutcome)
    (H : ∀ o ∈ tl, o = CallOutcome.reused h) :
    List.Pairwise (fun a b => CallOutcome.handle a = CallOutcome.handle b)
      tl := by
  induction tl with
  | nil => exact List.Pairwise.nil
  | cons a l ih =>
    refine List.Pairwise.cons (fun b hb => ?_)
      (ih fun o ho => H o (List.mem_cons_of_mem _ ho))
    rw [H a (List.mem_cons_self a l), H b (List.mem_cons_of_mem _ hb)]

/-- C2: starting from an empty registry, any linearized history of
lookup-or-create calls constructs at most one worker for each device
identifier, every call for that identifier observes the same handle, the
registry never holds two entries for one identifier, and
`try_get_device_features` spawns no worker outside the registry whenever the
registry is available. -/
theorem single_worker_per_device (ids : List String) (id : String) :
    constructedCount (callsFor (runCalls ⟨[], 0⟩ ids).1 id) ≤ 1 ∧
    List.Pairwise (fun a b => CallOutcome.handle a = CallOutcome.handle b)
      (callsFor (runCalls ⟨[], 0⟩ ids).1 id) ∧
    keyCount id (runCalls ⟨[], 0⟩ ids).2.table ≤ 1 ∧
    (∀ (α : Type) (convert : α → DeviceFeatures) (st : RegState)
        (device : FriendlyUsbDevice) (fut : FutureOutcome (Except String α))
        (oob : Except String DeviceFeatures),
      (try_get_device_features convert (some st) device fut
          oob).spawnedOutsideRegistry = 0) := by
  rcases runCalls_fresh ids ⟨[], 0⟩ id rfl rfl with
    ⟨q1, -, q3⟩ | ⟨h, tl, q1, q2, -, q4⟩
  · rw [q1, q3]
    exact ⟨Nat.zero_le 1, List.Pairwise.nil, Nat.zero_le 1,
      fun α convert st device fut oob => rfl⟩
  · rw [q1, q4]
    refine ⟨?_, ?_, Nat.le_refl 1, fun α convert st device fut oob => rfl⟩
    · have h0 := constructedCount_all_reused h tl q2
      simp [constructedCount, List.filter_cons, CallOutcome.isNew] at h0 ⊢
      exact h0
    · exact List.Pairwise.cons
        (fun b hb => by rw [q2 b hb]; rfl)
        (pairwise_handles_all_reused h tl q2)
